import Mathlib

/-!
Verification development for the configuration-resolution and identity-discovery
core of ssh-ident3 (file `ssh-ident3.py`).

The Python source is shallowly embedded: Python values that can appear in the
settings maps become the inductive type `PyVal`; `os.environ`, the filesystem
predicates and the current user are collected into a `World` record;
`Config._values` / `Config._defaults` become the `ConfigState` record, and the
methods that read or mutate them become functions returning the new state.
Fatal exits (`sys.exit`) and uncaught Python exceptions become `Except PyExit`.

A Python peculiarity that matters below: in `get_entry` the source executes
`result['VALUE'] = result['UNEXPANDED'] = <map value>`, so both dict slots and
the originating map entry are bound to the SAME Python object.  The helper
`Config._expand_value` rebinds `result['VALUE']` for top-level strings (leaving
the aliases untouched, strings being immutable), but for list values it mutates
the list IN PLACE at nesting depths 1..3.  The embedding reproduces this:
`sharedAfterExpand` describes what the aliased object looks like after
`_expand_value` ran, and `get_entry` stores it back into the originating map.
-/

namespace SshIdent3

/-- Values that can appear in the settings maps: the JSON/Python data reachable
from `_defaults`, `os.environ` and a parsed config file.  `attr` stands for a
non-data Python object (such as the bound method produced by
`eval("LOG_LEVEL.get_name")`), identified by a display string. -/
inductive PyVal where
  | none
  | bool (b : Bool)
  | int (n : Int)
  | str (s : String)
  | attr (s : String)
  | list (l : List PyVal)
deriving Repr

/-- Origin tags, class `CONFIG_ORIGIN` in the source. -/
inductive CONFIG_ORIGIN where
  | ENV
  | ARGV
  | CONFIG
  | DEFAULT
  | DIR
deriving Repr, DecidableEq

/-- `c in s` for a character: membership of a character in a string. -/
def strContains (s : String) (c : Char) : Bool :=
  s.data.contains c

/-- `s.startswith(p)`. -/
def strStartsWith (s p : String) : Bool :=
  p.data.isPrefixOf s.data

/-- `s.endswith(p)`. -/
def strEndsWith (s p : String) : Bool :=
  p.data.reverse.isPrefixOf s.data.reverse

/-- `s[n:]` for a non-negative `n` (character count; all strings handled by
the source are ASCII, where characters and bytes coincide). -/
def strDrop (s : String) (n : Nat) : String :=
  String.mk (s.data.drop n)

/-- `str.split(c)` on a list of characters: the (non-empty) list of
separator-free chunks; splitting the empty text yields one empty chunk. -/
def splitCharList (c : Char) : List Char → List (List Char)
  | [] => [[]]
  | x :: xs =>
    let r := splitCharList c xs
    if x = c then [] :: r
    else
      match r with
      | [] => [[x]]
      | h :: t => (x :: h) :: t

/-- `path.split('/')`. -/
def splitOnSlash (s : String) : List String :=
  (splitCharList '/' s.data).map String.mk

/-- Concatenation of character lists with `/` in between. -/
def joinCharLists : List (List Char) → List Char
  | [] => []
  | [x] => x
  | x :: xs => x ++ '/' :: joinCharLists xs

/-- `'/'.join(parts)`. -/
def intercalateSlash (l : List String) : String :=
  String.mk (joinCharLists (l.map String.data))

/-- ASCII word character, the `\w` class of `re.ASCII` used by
`posixpath.expandvars`. -/
def isWordChar (c : Char) : Bool :=
  c.isAlphanum || c = '_'

/-- Longest leading run of word characters and the remaining characters
(the `\w+` alternative of the `expandvars` pattern). -/
def takeWord : List Char → List Char × List Char
  | [] => ([], [])
  | c :: cs =>
    if isWordChar c then
      let p := takeWord cs
      (c :: p.1, p.2)
    else ([], c :: cs)

/-- Characters up to (excluding) the first `\x7d`, and the characters after it;
`none` when no closing brace exists (then the `$\x7b...` text cannot match the
`expandvars` pattern).  This is the `\x7b[^\x7d]*\x7d` alternative. -/
def splitAtBrace : List Char → Option (List Char × List Char)
  | [] => Option.none
  | c :: cs =>
    if c = '}' then some ([], cs)
    else
      match splitAtBrace cs with
      | some (n, r) => some (c :: n, r)
      | Option.none => Option.none

/-- Scanner of `posixpath.expandvars`: replaces `$name` and `$\x7bname\x7d`
occurrences by `env name` when defined, leaves the text of an undefined
variable unchanged, and never rescans substituted text (the CPython loop
resumes after the substituted value).  Every step consumes at least one
character of the remaining input, so with `fuel` initialized to the input
length the fuel-exhaustion branch (which returns the rest unchanged) is never
taken: the recursion is on `fuel` only to keep it structural. -/
def expandVarsGo (env : String → Option String) : Nat → List Char → List Char
  | 0, l => l
  | _ + 1, [] => []
  | _ + 1, ['$'] => ['$']
  | fuel + 1, '$' :: '{' :: rest2 =>
    (match splitAtBrace rest2 with
     | some (name, after) =>
       (match env (String.mk name) with
        | some v => v.data ++ expandVarsGo env fuel after
        | Option.none => '$' :: '{' :: (name ++ '}' :: expandVarsGo env fuel after))
     | Option.none => '$' :: expandVarsGo env fuel ('{' :: rest2))
  | fuel + 1, '$' :: c2 :: rest2 =>
    if isWordChar c2 then
      (match env (String.mk (takeWord (c2 :: rest2)).1) with
       | some v => v.data ++ expandVarsGo env fuel (takeWord (c2 :: rest2)).2
       | Option.none =>
         '$' :: ((takeWord (c2 :: rest2)).1 ++ expandVarsGo env fuel (takeWord (c2 :: rest2)).2))
    else '$' :: expandVarsGo env fuel (c2 :: rest2)
  | fuel + 1, c :: rest => c :: expandVarsGo env fuel rest

/-- `os.path.expandvars` (posixpath): returns the input unchanged when it
contains no dollar sign, otherwise runs the substitution scan. -/
def expandVars (env : String → Option String) (s : String) : String :=
  if strContains s '$' then String.mk (expandVarsGo env s.data.length s.data) else s

/-- Python `str.rstrip('/')`. -/
def rstripSlash (s : String) : String :=
  String.mk (s.data.reverse.dropWhile (fun c => c = '/')).reverse

/-- `os.path.expanduser` (posixpath).  `resolveHome ""` models the home
directory of the invoking user (`$HOME`, falling back to the password
database); `resolveHome name` the password-database entry of `name`;
`Option.none` models the `KeyError` that makes `expanduser` return the path
unchanged. -/
def expandUser (resolveHome : String → Option String) (path : String) : String :=
  if ¬ strStartsWith path "~" then path
  else
    let i : Nat :=
      match (path.data.drop 1).findIdx? (fun c => c = '/') with
      | some j => 1 + j
      | Option.none => path.data.length
    let name := String.mk ((path.data.drop 1).take (i - 1))
    match resolveHome name with
    | Option.none => path
    | some userhome =>
      let userhome := rstripSlash userhome
      let r := userhome ++ String.mk (path.data.drop i)
      if r = "" then "/" else r

/-- The ambient process state read by the source: `os.environ`, home-directory
resolution for `os.path.expanduser`, the filesystem predicates `os.path.isdir`
and `os.path.isfile`, the parsed content of a config file at a given path
(the composition of reading the file, stripping `//` comment lines and
`json.loads`; `Option.none` models a file whose text is empty after comment
stripping, in which case `load_config_file` skips the assignment to
`_values`), and `getpass.getuser()`. -/
structure World where
  osenv : String → Option String
  resolveHome : String → Option String
  isdir : String → Bool
  isfile : String → Bool
  readConfig : String → Option (List (String × PyVal))
  username : String

/-- `os.path.expanduser(os.path.expandvars(s))`, the composite used throughout
the source for strings. -/
def expandStr (w : World) (s : String) : String :=
  expandUser w.resolveHome (expandVars w.osenv s)

/-- Depth-3 step of `Config._expand_value` (the `entry3` loop): only strings
are expanded; anything else is left alone. -/
def expandL3 (w : World) : PyVal → PyVal
  | .str s => .str (expandStr w s)
  | v => v

/-- Depth-2 step of `Config._expand_value` (the `entry2` loop). -/
def expandL2 (w : World) : PyVal → PyVal
  | .str s => .str (expandStr w s)
  | .list l => .list (l.map (expandL3 w))
  | v => v

/-- Depth-1 step of `Config._expand_value` (the `entry1` loop). -/
def expandL1 (w : World) : PyVal → PyVal
  | .str s => .str (expandStr w s)
  | .list l => .list (l.map (expandL2 w))
  | v => v

/-- `Config._expand_value` as a function on the value stored in
`result['VALUE']`: a top-level string is expanded (by rebinding the dict slot),
lists are rewritten at nesting depths 1 to 3, all other values are returned
unchanged. -/
def expand_value (w : World) : PyVal → PyVal
  | .str s => .str (expandStr w s)
  | .list l => .list (l.map (expandL1 w))
  | v => v

/-- What the object aliased by `result['UNEXPANDED']` and by the originating
map entry looks like after `Config._expand_value` ran on `result['VALUE']`:
a top-level string slot is REBOUND, so the aliases keep the original string,
but a list is mutated IN PLACE, so the aliases see the expanded list. -/
def sharedAfterExpand (w : World) (v : PyVal) : PyVal :=
  match v with
  | .list _ => expand_value w v
  | _ => v

/-- A string with no dollar sign (hence no environment-variable reference) and
no leading tilde. -/
def noRefStr (s : String) : Bool :=
  !strContains s '$' && !strStartsWith s "~"

/-- No reference at depth 3. -/
def noRefL3 : PyVal → Bool
  | .str s => noRefStr s
  | _ => true

/-- No reference at depths 2..3. -/
def noRefL2 : PyVal → Bool
  | .str s => noRefStr s
  | .list l => l.all noRefL3
  | _ => true

/-- No reference at depths 1..3. -/
def noRefL1 : PyVal → Bool
  | .str s => noRefStr s
  | .list l => l.all noRefL2
  | _ => true

/-- No environment-variable reference and no leading tilde anywhere
`Config._expand_value` looks (top level and nesting depths 1 to 3). -/
def noRefVal : PyVal → Bool
  | .str s => noRefStr s
  | .list l => l.all noRefL1
  | _ => true

/-- Process termination: `sys.exit(n)` or an uncaught Python exception
(which also terminates the process with a non-zero status). -/
inductive PyExit where
  | exitCode (n : Nat)
  | exc
deriving Repr, DecidableEq

/-- Models the Python `eval` calls of the source, which are only ever applied
to `'LOG_LEVEL.' + <text>`: an attribute expression on the class `LOG_LEVEL`.
Its class attributes are the four level constants `ERROR WARN INFO DEBUG`
(evaluating to their ordinals 1..4) and the method `get_name` (evaluating to a
bound-method object, not an ordinal).  Any other identifier raises
`AttributeError`, an uncaught exception.  (Attributes inherited from `object`,
such as `__name__` or `mro`, would also resolve in Python; they are not needed
by any statement below and are not modelled, and no theorem below quantifies
over the unmodelled identifiers.) -/
def pyEvalLogLevel (s : String) : Except PyExit PyVal :=
  if ¬ strStartsWith s "LOG_LEVEL." then Except.error PyExit.exc
  else if strDrop s 10 = "ERROR" then Except.ok (PyVal.int 1)
  else if strDrop s 10 = "WARN" then Except.ok (PyVal.int 2)
  else if strDrop s 10 = "INFO" then Except.ok (PyVal.int 3)
  else if strDrop s 10 = "DEBUG" then Except.ok (PyVal.int 4)
  else if strDrop s 10 = "get_name" then Except.ok (PyVal.attr "LOG_LEVEL.get_name")
  else Except.error PyExit.exc

/-- The conversion applied to a textual `VERBOSITY` value, shared by
`load_config_file` (lines 263–266) and the environment branch of `get_entry`
(lines 316–319): prepend `LOG_LEVEL.` unless already present, then `eval`. -/
def convertVerbosityText (s : String) : Except PyExit PyVal :=
  pyEvalLogLevel (if strStartsWith s "LOG_LEVEL." then s else "LOG_LEVEL." ++ s)

/-- Python `==` between an arbitrary value and an int constant (`True == 1`
and `False == 0` hold in Python). -/
def pyEqInt (v : PyVal) (n : Int) : Bool :=
  match v with
  | .int m => m == n
  | .bool b => (if b then (1 : Int) else 0) == n
  | _ => false

/-- `LOG_LEVEL.get_name`: the symbolic name of a level ordinal, or the value
itself when it is not a known ordinal. -/
def get_name (value : PyVal) : PyVal :=
  if pyEqInt value 1 then .str "LOG_LEVEL.ERROR"
  else if pyEqInt value 2 then .str "LOG_LEVEL.WARN"
  else if pyEqInt value 3 then .str "LOG_LEVEL.INFO"
  else if pyEqInt value 4 then .str "LOG_LEVEL.DEBUG"
  else value

/-- Python dict membership/lookup on an insertion-ordered association list. -/
def lookup (m : List (String × PyVal)) (k : String) : Option PyVal :=
  (m.find? (fun p => p.1 == k)).map (fun p => p.2)

/-- Python dict assignment `m[k] = v`: replaces the value when the key is
present, appends otherwise. -/
def dictSet (m : List (String × PyVal)) (k : String) (v : PyVal) :
    List (String × PyVal) :=
  if (m.find? (fun p => p.1 == k)).isSome then
    m.map (fun p => if p.1 == k then (p.1, v) else p)
  else m ++ [(k, v)]

/-- `Config._defaults`, the compiled default catalog, in source order.
`VERBOSITY` is `LOG_LEVEL.INFO = 3` and `SSH_BATCH_MODE` is `False`. -/
def defaultsCatalog : List (String × PyVal) := [
  ("BINARY_SSH", PyVal.none),
  ("BINARY_SSH_AGENT", PyVal.str "ssh-agent"),
  ("BINARY_SSH_ADD", PyVal.str "ssh-add"),
  ("VERBOSITY", PyVal.int 3),
  ("BINARY_DIR", PyVal.none),
  ("SSH_OPTIONS", PyVal.list [
    PyVal.list [PyVal.list [], PyVal.list [PyVal.str "ssh", PyVal.str "scp", PyVal.str "sftp"],
      PyVal.str "-oUseRoaming=no"]]),
  ("SSH_ADD_OPTIONS", PyVal.list [
    PyVal.list [PyVal.list [], PyVal.list [], PyVal.str "-t 7200"]]),
  ("BINARIES_SSH_AGENT", PyVal.list [PyVal.str "ssh-agent", PyVal.str "ssh-pageant"]),
  ("BINARIES_SSH_ADD", PyVal.list [PyVal.str "ssh-add"]),
  ("DIR_IDENTITIES", PyVal.str "${HOME}/.ssh/identities"),
  ("DEFAULT_IDENTITY", PyVal.str "${USER}"),
  ("IDENTITY_SSH_AGENT", PyVal.list []),
  ("IDENTITY_SSH_ADD", PyVal.list []),
  ("DIR_AGENTS", PyVal.str "${HOME}/.ssh/agents"),
  ("CONFIG_FILE", PyVal.str ".ssh-ident3.json"),
  ("CONFIG_DIRS", PyVal.list [PyVal.str "${XDG_CONFIG_HOME}", PyVal.str "~/.config", PyVal.str "~"]),
  ("BINARIES_SSH_IDENT", PyVal.list [PyVal.str "ssh-ident3.py"]),
  ("SSH_BATCH_MODE", PyVal.bool false)]

/-- The mutable maps of a `Config` object: the config-file override map
`_values` and the (class-level, but mutated through aliasing) default map
`_defaults`. -/
structure ConfigState where
  values : List (String × PyVal)
  defaults : List (String × PyVal)
deriving Repr

/-- A fresh `Config()`: empty override map, pristine defaults. -/
def initialState : ConfigState :=
  { values := [], defaults := defaultsCatalog }

/-- The dict returned by `Config.get_entry` / `Config.get_default_entry`. -/
structure Entry where
  setting : String
  expandFlag : Bool
  origin : CONFIG_ORIGIN
  value : PyVal
  unexpanded : PyVal
  name : Option PyVal
deriving Repr

/-- `Config.get_entry(setting, expand)` (lines 306–338).  Probes, in order,
`os.environ`, `_values`, `_defaults`; a name found nowhere is the fatal
`sys.exit(2)`.  A textual environment `VERBOSITY` is converted through `eval`
before expansion.  The returned `ConfigState` records the in-place list
mutation that expansion performs through the `VALUE`/`UNEXPANDED`/map
aliasing. -/
def get_entry (w : World) (st : ConfigState) (setting : String) (expandFlag : Bool) :
    Except PyExit (Entry × ConfigState) :=
  match w.osenv setting with
  | some s =>
    let conv : Except PyExit PyVal :=
      if setting = "VERBOSITY" then convertVerbosityText s else Except.ok (PyVal.str s)
    (match conv with
     | Except.error e => Except.error e
     | Except.ok v =>
       let value := if expandFlag then expand_value w v else v
       Except.ok
         ({ setting := setting, expandFlag := expandFlag, origin := CONFIG_ORIGIN.ENV,
            value := value, unexpanded := PyVal.str s,
            name := if setting = "VERBOSITY" then some (get_name value) else Option.none }, st))
  | Option.none =>
    match lookup st.values setting with
    | some v =>
      let value := if expandFlag then expand_value w v else v
      let shared := if expandFlag then sharedAfterExpand w v else v
      Except.ok
        ({ setting := setting, expandFlag := expandFlag, origin := CONFIG_ORIGIN.CONFIG,
           value := value, unexpanded := shared,
           name := if setting = "VERBOSITY" then some (get_name value) else Option.none },
         { st with values := dictSet st.values setting shared })
    | Option.none =>
      match lookup st.defaults setting with
      | some v =>
        let value := if expandFlag then expand_value w v else v
        let shared := if expandFlag then sharedAfterExpand w v else v
        Except.ok
          ({ setting := setting, expandFlag := expandFlag, origin := CONFIG_ORIGIN.DEFAULT,
             value := value, unexpanded := shared,
             name := if setting = "VERBOSITY" then some (get_name value) else Option.none },
           { st with defaults := dictSet st.defaults setting shared })
      | Option.none => Except.error (PyExit.exitCode 2)

/-- `Config.get_value(setting, expand)`: the `VALUE` slot of `get_entry`. -/
def get_value (w : World) (st : ConfigState) (setting : String) (expandFlag : Bool) :
    Except PyExit (PyVal × ConfigState) :=
  (get_entry w st setting expandFlag).map (fun p => (p.1.value, p.2))

/-- Loop body of `posixpath.normpath`: process the slash-separated components,
keeping an accumulator in reverse order (Python appends to / pops from the end
of `new_comps`; here the head plays that role). -/
def normpathLoop (initialSlashes : Nat) : List String → List String → List String
  | newComps, [] => newComps.reverse
  | newComps, comp :: rest =>
    if comp = "" ∨ comp = "." then normpathLoop initialSlashes newComps rest
    else if comp ≠ ".." ∨ (initialSlashes = 0 ∧ newComps = []) ∨ (newComps.head? = some "..") then
      normpathLoop initialSlashes (comp :: newComps) rest
    else
      match newComps with
      | [] => normpathLoop initialSlashes [] rest
      | _ :: t => normpathLoop initialSlashes t rest

/-- `os.path.normpath` (posixpath). -/
def normpath (path : String) : String :=
  if path = "" then "."
  else
    let initialSlashes : Nat :=
      if strStartsWith path "/" then
        if strStartsWith path "//" ∧ ¬ strStartsWith path "///" then 2 else 1
      else 0
    let comps := splitOnSlash path
    let newComps := normpathLoop initialSlashes [] comps
    let p := String.mk (List.replicate initialSlashes '/') ++ intercalateSlash newComps
    if p = "" then "." else p

/-- `os.path.join(a, b)` (posixpath, two arguments). -/
def pathJoin (a b : String) : String :=
  if strStartsWith b "/" then b
  else if a = "" ∨ strEndsWith a "/" then a ++ b
  else a ++ "/" ++ b

/-- Python iteration over the value bound to `config_dirs`: a list yields its
elements, a string yields its characters as one-character strings, anything
else raises `TypeError`. -/
def pyIterate : PyVal → Except PyExit (List PyVal)
  | .list l => Except.ok l
  | .str s => Except.ok (s.data.map (fun c => PyVal.str (String.mk [c])))
  | _ => Except.error PyExit.exc

/-- Lines 260–267 of `load_config_file`: if the parsed map carries a string
`VERBOSITY`, convert it through `eval` and store the result back. -/
def convertVerbosityInMap (m : List (String × PyVal)) :
    Except PyExit (List (String × PyVal)) :=
  match lookup m "VERBOSITY" with
  | some (.str s) =>
    (match convertVerbosityText s with
     | Except.ok v => Except.ok (dictSet m "VERBOSITY" v)
     | Except.error e => Except.error e)
  | _ => Except.ok m

/-- The candidate loop of `Config.load_config_file` (lines 244–269).
Each candidate is normalized; a candidate that is not a directory, or is one
but lacks the config file, is skipped; at the first directory-with-file match
the file is parsed (a file empty after comment stripping leaves `_values`
untouched) and the loop breaks.  A non-string candidate raises `TypeError`
inside `os.path.normpath`. -/
def loadFromDirs (w : World) (configFile : String) :
    List PyVal → ConfigState → Except PyExit ConfigState
  | [], st => Except.ok st
  | d :: rest, st =>
    match d with
    | .str ds =>
      let configDir := normpath ds
      if ¬ w.isdir configDir then loadFromDirs w configFile rest st
      else
        let configPath := pathJoin configDir configFile
        if ¬ w.isfile configPath then loadFromDirs w configFile rest st
        else
          match w.readConfig configPath with
          | Option.none => Except.ok st
          | some m =>
            (match convertVerbosityInMap m with
             | Except.ok m2 => Except.ok { st with values := m2 }
             | Except.error e => Except.error e)
    | _ => Except.error PyExit.exc

/-- `Config.load_config_file` (lines 241–269): fetch and normalize the config
filename, fetch the candidate directories (both through `get_value`, i.e.
`get_entry` with expansion), then run the candidate loop. -/
def load_config_file (w : World) (st : ConfigState) : Except PyExit ConfigState :=
  match get_entry w st "CONFIG_FILE" true with
  | Except.error e => Except.error e
  | Except.ok p1 =>
    (match p1.1.value with
     | .str cf =>
       (match get_entry w p1.2 "CONFIG_DIRS" true with
        | Except.error e => Except.error e
        | Except.ok p2 =>
          (match pyIterate p2.1.value with
           | Except.error e => Except.error e
           | Except.ok dirs => loadFromDirs w (normpath cf) dirs p2.2))
     | _ => Except.error PyExit.exc)

/-- The first candidate directory (normalized) that exists and contains the
config file; the search order and skip conditions of the candidate loop. -/
def firstMatchDir (w : World) (configFile : String) : List String → Option String
  | [] => Option.none
  | d :: rest =>
    let cd := normpath d
    if w.isdir cd && w.isfile (pathJoin cd configFile) then some cd
    else firstMatchDir w configFile rest

/-- What loading does at the matched path: parse (nothing to do for a file
empty after comment stripping), convert `VERBOSITY`, replace `_values`. -/
def applyLoad (w : World) (st : ConfigState) (p : String) : Except PyExit ConfigState :=
  match w.readConfig p with
  | Option.none => Except.ok st
  | some m =>
    (match convertVerbosityInMap m with
     | Except.ok m2 => Except.ok { st with values := m2 }
     | Except.error e => Except.error e)

/-- One entry of the `identities` dict built by `ssh_ident`: the dict keys
`ORIGIN`, `SETTING`, `UNEXPANDED` are always present, `DIR` only once a
directory was attached. -/
structure IdEntry where
  origin : CONFIG_ORIGIN
  setting : String
  unexpanded : String
  dir : Option PyVal
deriving Repr

/-- The slots of the `config_entry` dict that `add_identity` reads. -/
structure CfgEntryRef where
  setting : String
  origin : CONFIG_ORIGIN
  value : PyVal

/-- Lookup in the `identities` dict (insertion-ordered). -/
def idLookup (ids : List (String × IdEntry)) (k : String) : Option IdEntry :=
  (ids.find? (fun p => p.1 == k)).map (fun p => p.2)

/-- Dict assignment `identities[k] = e`. -/
def idSet (ids : List (String × IdEntry)) (k : String) (e : IdEntry) :
    List (String × IdEntry) :=
  if (ids.find? (fun p => p.1 == k)).isSome then
    ids.map (fun p => if p.1 == k then (p.1, e) else p)
  else ids ++ [(k, e)]

/-- The replacement condition of `add_identity` (lines 468–478), verbatim. -/
def replaceOrigin (origin old_origin : CONFIG_ORIGIN) : Prop :=
  (origin = CONFIG_ORIGIN.ENV ∧ ¬ old_origin = CONFIG_ORIGIN.ENV)
  ∨ (origin = CONFIG_ORIGIN.ARGV ∧ ¬ old_origin = CONFIG_ORIGIN.ENV)
  ∨ (origin = CONFIG_ORIGIN.CONFIG ∧ ¬ old_origin = CONFIG_ORIGIN.ARGV
     ∧ ¬ old_origin = CONFIG_ORIGIN.ENV)
  ∨ (origin = CONFIG_ORIGIN.DEFAULT ∧ ¬ old_origin = CONFIG_ORIGIN.CONFIG
     ∧ ¬ old_origin = CONFIG_ORIGIN.ARGV ∧ ¬ old_origin = CONFIG_ORIGIN.ENV)

instance (origin old_origin : CONFIG_ORIGIN) : Decidable (replaceOrigin origin old_origin) := by
  unfold replaceOrigin
  infer_instance

/-- `add_identity` (lines 457–482): normalize the name by expansion; a new
name gets a fresh entry with the reference's origin/setting; a recurring name
has its origin/setting replaced exactly under `replaceOrigin`; afterwards,
whenever the reference's origin is `DIR`, the reference's `VALUE` is attached
as the entry's `DIR`, independently of the replacement. -/
def add_identity (w : World) (identity : String) (ids : List (String × IdEntry))
    (ce : CfgEntryRef) : List (String × IdEntry) :=
  let expandedIdentity := expandStr w identity
  let origin := ce.origin
  let ids1 :=
    match idLookup ids expandedIdentity with
    | Option.none =>
      idSet ids expandedIdentity
        { origin := origin, setting := ce.setting, unexpanded := identity, dir := Option.none }
    | some old =>
      if replaceOrigin origin old.origin then
        idSet ids expandedIdentity { old with origin := origin, setting := ce.setting }
      else ids
  if origin = CONFIG_ORIGIN.DIR then
    match idLookup ids1 expandedIdentity with
    | some e => idSet ids1 expandedIdentity { e with dir := some ce.value }
    | Option.none => ids1
  else ids1

/-- Python `'k' in identities[identity]` for the entry dicts built by
`add_identity`: the keys ever written are exactly `ORIGIN`, `SETTING`,
`UNEXPANDED` and `DIR`. -/
def entryHasKey (e : IdEntry) (k : String) : Bool :=
  k == "ORIGIN" || k == "SETTING" || k == "UNEXPANDED" || (k == "DIR" && e.dir.isSome)

/-- The current-user special case of `ssh_ident` (lines 513–523): if the login
name is a key of the mapping and the membership test `'dir' in
identities[identity]` fails (note the lower-case key, which is never present —
the attached-directory key is `'DIR'`), attach the fallback `~/.ssh`
(expanduser only) when it is a directory, through `add_identity` with origin
`DIR`. -/
def specialCaseCurrentUser (w : World) (ids : List (String × IdEntry)) :
    List (String × IdEntry) :=
  let identity := w.username
  match idLookup ids identity with
  | Option.none => ids
  | some e =>
    if ¬ entryHasKey e "dir" then
      let fallback := expandUser w.resolveHome "~/.ssh"
      if w.isdir fallback then
        add_identity w identity ids
          { setting := "directory", origin := CONFIG_ORIGIN.DIR, value := PyVal.str fallback }
      else ids
    else ids

/-- The priority rank of the origins in the merge rule:
ENVIRONMENT > ARGV > CONFIG_FILE > DEFAULT > DIRECTORY. -/
def originRank : CONFIG_ORIGIN → Nat
  | .ENV => 5
  | .ARGV => 4
  | .CONFIG => 3
  | .DEFAULT => 2
  | .DIR => 1

/-! ### Helper lemmas about association-list dictionaries -/

theorem find?_cons_if {α : Type} (p : α → Bool) (a : α) (l : List α) :
    (a :: l).find? p = if p a then some a else l.find? p := by
  cases h : p a <;> simp [List.find?, h]

theorem find_replace_self {α : Type} (k : String) (e : α) :
    ∀ m : List (String × α), (m.find? (fun p => p.1 == k)).isSome = true →
      ((m.map (fun p => if p.1 == k then (p.1, e) else p)).find?
        (fun p => p.1 == k)).map (fun p => p.2) = some e := by
  intro m
  induction m with
  | nil => intro h; simp [List.find?] at h
  | cons p t ih =>
    intro h
    by_cases hp : (p.1 == k) = true
    · have step : ((p :: t).map (fun p => if p.1 == k then (p.1, e) else p)) =
          (p.1, e) :: (t.map (fun p => if p.1 == k then (p.1, e) else p)) := by
        rw [List.map_cons]
        congr 1
        exact if_pos hp
      rw [step, find?_cons_if]
      simp only [hp, if_pos]
      rfl
    · have h' : (t.find? (fun p => p.1 == k)).isSome = true := by
        rw [find?_cons_if] at h
        simp only [hp, if_false, Bool.false_eq_true] at h
        exact h
      have step : ((p :: t).map (fun p => if p.1 == k then (p.1, e) else p)) =
          p :: (t.map (fun p => if p.1 == k then (p.1, e) else p)) := by
        rw [List.map_cons]
        congr 1
        exact if_neg hp
      rw [step, find?_cons_if]
      simp only [hp, if_false, Bool.false_eq_true]
      exact ih h'

theorem find_append_self {α : Type} (k : String) (e : α) :
    ∀ m : List (String × α), (m.find? (fun p => p.1 == k)) = Option.none →
      (((m ++ [(k, e)]).find? (fun p => p.1 == k)).map (fun p => p.2)) = some e := by
  intro m
  induction m with
  | nil =>
    intro _
    rw [List.nil_append, find?_cons_if]
    simp
  | cons p t ih =>
    intro h
    rw [find?_cons_if] at h
    by_cases hp : (p.1 == k) = true
    · rw [if_pos hp] at h
      exact absurd h (by simp)
    · rw [if_neg hp] at h
      rw [List.cons_append, find?_cons_if, if_neg hp]
      exact ih h

theorem map_fst_replace {α : Type} (k : String) (e : α) (m : List (String × α)) :
    (m.map (fun p => if p.1 == k then (p.1, e) else p)).map Prod.fst = m.map Prod.fst := by
  induction m with
  | nil => rfl
  | cons p t ih =>
    simp only [List.map_cons, ih]
    congr 1
    by_cases hp : (p.1 == k) = true
    · rw [if_pos hp]
    · rw [if_neg hp]

theorem idLookup_idSet_self (ids : List (String × IdEntry)) (k : String) (e : IdEntry) :
    idLookup (idSet ids k e) k = some e := by
  unfold idSet idLookup
  by_cases h : (ids.find? (fun p => p.1 == k)).isSome = true
  · rw [if_pos h]
    exact find_replace_self k e ids h
  · rw [if_neg h]
    exact find_append_self k e ids (by
      cases hf : ids.find? (fun p => p.1 == k) with
      | none => rfl
      | some p => rw [hf] at h; simp at h)

theorem map_fst_idSet (ids : List (String × IdEntry)) (k : String) (e : IdEntry) :
    (idSet ids k e).map Prod.fst =
      if (ids.find? (fun p => p.1 == k)).isSome then ids.map Prod.fst
      else ids.map Prod.fst ++ [k] := by
  unfold idSet
  by_cases h : (ids.find? (fun p => p.1 == k)).isSome = true
  · rw [if_pos h, if_pos h]
    exact map_fst_replace k e ids
  · rw [if_neg h, if_neg h]
    simp

theorem idLookup_isSome_iff (ids : List (String × IdEntry)) (k : String) :
    (idLookup ids k).isSome = true ↔ k ∈ ids.map Prod.fst := by
  unfold idLookup
  induction ids with
  | nil => simp [List.find?]
  | cons p t ih =>
    rw [find?_cons_if]
    by_cases hp : (p.1 == k) = true
    · have hpk : p.1 = k := by simpa using hp
      rw [if_pos hp]
      simp [hpk]
    · have hpk : ¬ p.1 = k := by simpa using hp
      rw [if_neg hp, List.map_cons]
      constructor
      · intro hs
        exact List.mem_cons.mpr (Or.inr (ih.mp hs))
      · intro hm
        rcases List.mem_cons.mp hm with h1 | h2
        · exact absurd h1.symm hpk
        · exact ih.mpr h2

/-- `replaceOrigin` is exactly: the new origin strictly outranks the old one,
or ties with it at a rank other than ENVIRONMENT's or DIRECTORY's. -/
theorem replaceOrigin_iff_rank (origin old_origin : CONFIG_ORIGIN) :
    replaceOrigin origin old_origin ↔
      (originRank old_origin < originRank origin ∨
       (originRank old_origin = originRank origin ∧
        origin ≠ CONFIG_ORIGIN.ENV ∧ origin ≠ CONFIG_ORIGIN.DIR)) := by
  cases origin <;> cases old_origin <;> decide

theorem get_entry_values_empty (w : World) (st : ConfigState) (setting : String)
    (ex : Bool) (p : Entry × ConfigState)
    (hv : st.values = []) (h : get_entry w st setting ex = Except.ok p) :
    p.2.values = [] := by
  unfold get_entry at h
  split at h
  · rename_i s heq
    split at h
    · cases hc : convertVerbosityText s with
      | error e =>
        rw [hc] at h
        exact Except.noConfusion h
      | ok v =>
        rw [hc] at h
        rw [← Except.ok.inj h]
        exact hv
    · rw [← Except.ok.inj h]
      exact hv
  · split at h
    · rename_i v heq2
      rw [hv] at heq2
      simp [lookup, List.find?] at heq2
    · split at h
      · rw [← Except.ok.inj h]
        exact hv
      · exact Except.noConfusion h

/-! ### Fixed points of expansion -/

theorem map_eq_self_of_forall {α : Type} (f : α → α) :
    ∀ l : List α, (∀ x ∈ l, f x = x) → l.map f = l := by
  intro l
  induction l with
  | nil => intro _; rfl
  | cons a t ih =>
    intro h
    rw [List.map_cons, h a (List.mem_cons_self a t),
      ih (fun x hx => h x (List.mem_cons_of_mem a hx))]

theorem expandStr_noRef (w : World) (s : String) (h : noRefStr s = true) :
    expandStr w s = s := by
  unfold noRefStr at h
  rw [Bool.and_eq_true] at h
  obtain ⟨h1, h2⟩ := h
  have h1' : strContains s '$' = false := by
    cases hc : strContains s '$' <;> simp [hc] at h1 ⊢
  have h2' : strStartsWith s "~" = false := by
    cases hc : strStartsWith s "~" <;> simp [hc] at h2 ⊢
  unfold expandStr expandVars
  rw [if_neg (by simp [h1'])]
  unfold expandUser
  rw [if_pos (by simp [h2'])]

theorem expandL3_noRef (w : World) (v : PyVal) (h : noRefL3 v = true) :
    expandL3 w v = v := by
  cases v
  case str s =>
    simp only [expandL3]
    rw [expandStr_noRef w s (by simpa [noRefL3] using h)]
  all_goals rfl

theorem expandL2_noRef (w : World) (v : PyVal) (h : noRefL2 v = true) :
    expandL2 w v = v := by
  cases v
  case str s =>
    simp only [expandL2]
    rw [expandStr_noRef w s (by simpa [noRefL2] using h)]
  case list l =>
    simp only [expandL2]
    rw [map_eq_self_of_forall _ l (fun x hx =>
      expandL3_noRef w x (by
        have hall := by simpa [noRefL2] using h
        exact hall x hx))]
  all_goals rfl

theorem expandL1_noRef (w : World) (v : PyVal) (h : noRefL1 v = true) :
    expandL1 w v = v := by
  cases v
  case str s =>
    simp only [expandL1]
    rw [expandStr_noRef w s (by simpa [noRefL1] using h)]
  case list l =>
    simp only [expandL1]
    rw [map_eq_self_of_forall _ l (fun x hx =>
      expandL2_noRef w x (by
        have hall := by simpa [noRefL1] using h
        exact hall x hx))]
  all_goals rfl

/-! ### Concrete process states used by the closed statements -/

/-- A process state with nothing defined: empty environment, no home
resolution, empty filesystem, login name `u`. -/
def baseWorld : World :=
  { osenv := fun _ => Option.none, resolveHome := fun _ => Option.none,
    isdir := fun _ => false, isfile := fun _ => false,
    readConfig := fun _ => Option.none, username := "u" }

/-- Environment where `X` expands to text that itself contains a reference. -/
def chainEnvWorld : World :=
  { baseWorld with
    osenv := fun s =>
      if s = "X" then some "$Y" else if s = "Y" then some "z" else Option.none }

/-- Environment defining only `VERBOSITY=DEBUG`. -/
def debugEnvWorld : World :=
  { baseWorld with
    osenv := fun s => if s = "VERBOSITY" then some "DEBUG" else Option.none }

/-- Environment defining only `VERBOSITY=get_name`. -/
def getNameEnvWorld : World :=
  { baseWorld with
    osenv := fun s => if s = "VERBOSITY" then some "get_name" else Option.none }

/-- Environment defining only `VERBOSITY=error` (lower case, not a level). -/
def badLevelEnvWorld : World :=
  { baseWorld with
    osenv := fun s => if s = "VERBOSITY" then some "error" else Option.none }

/-- Environment defining only `FOO=bar`; `FOO` is not a recognized setting. -/
def fooEnvWorld : World :=
  { baseWorld with
    osenv := fun s => if s = "FOO" then some "bar" else Option.none }

/-- Environment with `XDG_CONFIG_HOME=/xdg` and a resolvable home directory
`/home/u` for the invoking user. -/
def homeWorld : World :=
  { baseWorld with
    osenv := fun s => if s = "XDG_CONFIG_HOME" then some "/xdg" else Option.none,
    resolveHome := fun u => if u = "" then some "/home/u" else Option.none }

/-- A config map that also defines `VERBOSITY` (as text). -/
def verbosityConfigState : ConfigState :=
  { values := [("VERBOSITY", PyVal.str "INFO")], defaults := defaultsCatalog }

/-- Environment defining only `BINARY_SSH=ssh-custom`. -/
def binarySshEnvWorld : World :=
  { baseWorld with
    osenv := fun s => if s = "BINARY_SSH" then some "ssh-custom" else Option.none }

/-- A config map that also defines `BINARY_SSH`. -/
def binarySshConfigState : ConfigState :=
  { values := [("BINARY_SSH", PyVal.str "/opt/ssh")], defaults := defaultsCatalog }

/-! ### Claim theorems -/

/-- Claim C9, counterexample: applying the expansion transform twice does not
in general equal applying it once — with `X=$Y` and `Y=z` in the environment,
one expansion of `$X` yields `$Y` (substituted text is not rescanned) and a
second expansion yields `z`.  This refutes the claim's "equivalently, applying
expansion twice equals applying it once" reformulation. -/
theorem expand_twice_differs :
    expand_value chainEnvWorld (expand_value chainEnvWorld (PyVal.str "$X")) ≠
      expand_value chainEnvWorld (PyVal.str "$X") := by
  have h1 : expand_value chainEnvWorld (PyVal.str "$X") = PyVal.str "$Y" := rfl
  have h2 : expand_value chainEnvWorld (PyVal.str "$Y") = PyVal.str "z" := rfl
  rw [h1, h2]
  simp

/-- Claim C9, amended: the expansion transform `Config._expand_value` returns
every value unchanged whose strings (at the top level and at nesting depths
1 to 3) contain no dollar sign and no leading tilde; on such values expansion
is in particular idempotent.  (The unrestricted "twice equals once" form is
refuted by the counterexample: once-expanded values can contain new
references.) -/
theorem expand_value_fixed_point (w : World) (v : PyVal) (h : noRefVal v = true) :
    expand_value w v = v := by
  cases v
  case str s =>
    simp only [expand_value]
    rw [expandStr_noRef w s (by simpa [noRefVal] using h)]
  case list l =>
    simp only [expand_value]
    rw [map_eq_self_of_forall _ l (fun x hx =>
      expandL1_noRef w x (by
        have hall := by simpa [noRefVal] using h
        exact hall x hx))]
  all_goals rfl

/-- Witness for the amended C9 on a concrete reference-free nested value. -/
theorem expand_value_fixed_point_witness :
    noRefVal (PyVal.list [PyVal.str "/a", PyVal.list [PyVal.str "b c", PyVal.int 7]]) = true ∧
    expand_value baseWorld
        (PyVal.list [PyVal.str "/a", PyVal.list [PyVal.str "b c", PyVal.int 7]]) =
      PyVal.list [PyVal.str "/a", PyVal.list [PyVal.str "b c", PyVal.int 7]] :=
  ⟨rfl, expand_value_fixed_point baseWorld _ rfl⟩

/-- Claim C10: when `VERBOSITY` is resolved from the environment (value
`DEBUG`), `get_entry` converts it to the ordinal 4 regardless of the `expand`
flag, while the `UNEXPANDED` slot keeps the original environment string. -/
theorem get_entry_verbosity_ignores_expand_flag (w : World) (st : ConfigState) (ex : Bool)
    (h : w.osenv "VERBOSITY" = some "DEBUG") :
    (get_entry w st "VERBOSITY" ex).toOption.map (fun p => (p.1.value, p.1.unexpanded)) =
      some (PyVal.int 4, PyVal.str "DEBUG") := by
  cases ex <;> (unfold get_entry; rw [h]; rfl)

/-- Witness for C10 with expansion off: the ordinal is returned, not the
string. -/
theorem get_entry_verbosity_ignores_expand_flag_witness :
    (get_entry debugEnvWorld initialState "VERBOSITY" false).toOption.map
        (fun p => (p.1.value, p.1.unexpanded)) = some (PyVal.int 4, PyVal.str "DEBUG") :=
  get_entry_verbosity_ignores_expand_flag debugEnvWorld initialState false rfl

/-- Claim C7: a textual `VERBOSITY` is accepted for the four case-sensitive
level names (here `DEBUG` ↦ 4) and the lower-case `error` is a fatal
uncaught exception — but, contrary to the claim, acceptance is NOT limited to
the four level names: the environment value `get_name` names a method
attribute of the `LOG_LEVEL` class, so `eval('LOG_LEVEL.get_name')` succeeds
and `get_entry` returns the bound method as the setting's value instead of
raising a fatal error.  The code contradicts the spec's "any other symbol is a
fatal error". -/
theorem verbosity_accepts_non_level_attribute :
    (get_entry getNameEnvWorld initialState "VERBOSITY" true).toOption.map
        (fun p => p.1.value) = some (PyVal.attr "LOG_LEVEL.get_name") ∧
    (get_entry debugEnvWorld initialState "VERBOSITY" true).toOption.map
        (fun p => p.1.value) = some (PyVal.int 4) ∧
    get_entry badLevelEnvWorld initialState "VERBOSITY" true = Except.error PyExit.exc :=
  ⟨rfl, rfl, rfl⟩

theorem convertVerbosityText_no_exit2 (s : String) :
    ∀ e, convertVerbosityText s = Except.error e → e = PyExit.exc := by
  intro e h
  unfold convertVerbosityText pyEvalLogLevel at h
  repeat' split at h
  all_goals first
    | exact (Except.error.inj h).symm
    | exact Except.noConfusion h

/-- Claim C2, counterexample: `VERBOSITY` is a recognized setting; with
`VERBOSITY=DEBUG` in the environment and `VERBOSITY` also present in the
loaded config map, the winning origin is ENVIRONMENT but the returned value is
the converted ordinal 4, NOT the environment string `DEBUG` — refuting "the
returned value equals the environment string exactly" as universally stated. -/
theorem get_entry_env_verbosity_converts_value :
    (get_entry debugEnvWorld verbosityConfigState "VERBOSITY" true).toOption.map
        (fun p => (p.1.origin, p.1.value)) = some (CONFIG_ORIGIN.ENV, PyVal.int 4) ∧
    PyVal.int 4 ≠ PyVal.str "DEBUG" ∧
    (lookup verbosityConfigState.values "VERBOSITY").isSome = true :=
  ⟨rfl, by simp, rfl⟩

/-- Claim C2, amended: for every setting other than `VERBOSITY` that is
defined in the environment (in particular also defined in the config map), the
entry's origin is ENVIRONMENT, its raw value is exactly the environment
string, and its value is exactly the environment string when expansion is off
(with expansion on it is the expanded environment string); the config map and
state are untouched.  `VERBOSITY` instead converts its value to the level
ordinal (see the counterexample). -/
theorem get_entry_env_precedence (w : World) (st : ConfigState) (setting s : String)
    (ex : Bool) (hs : setting ≠ "VERBOSITY")
    (hcfg : (lookup st.values setting).isSome = true)
    (henv : w.osenv setting = some s) :
    get_entry w st setting ex =
      Except.ok
        ({ setting := setting, expandFlag := ex, origin := CONFIG_ORIGIN.ENV,
           value := if ex then PyVal.str (expandStr w s) else PyVal.str s,
           unexpanded := PyVal.str s, name := Option.none }, st) := by
  unfold get_entry
  rw [henv]
  simp only [if_neg hs]
  rfl

/-- Witness for the amended C2: `BINARY_SSH` set both in the environment and
in the config map resolves from the environment, verbatim. -/
theorem get_entry_env_precedence_witness :
    get_entry binarySshEnvWorld binarySshConfigState "BINARY_SSH" false =
      Except.ok
        ({ setting := "BINARY_SSH", expandFlag := false, origin := CONFIG_ORIGIN.ENV,
           value := PyVal.str "ssh-custom", unexpanded := PyVal.str "ssh-custom",
           name := Option.none }, binarySshConfigState) :=
  get_entry_env_precedence binarySshEnvWorld binarySshConfigState "BINARY_SSH" "ssh-custom"
    false (by decide) rfl rfl

/-- Claim C6, counterexample: a setting name absent from the compiled default
catalog does NOT raise the fatal error when it happens to be defined in the
environment — `FOO` is not in the catalog, yet `get_entry` returns it from the
environment with origin ENVIRONMENT. -/
theorem get_entry_env_only_setting_no_fatal :
    (get_entry fooEnvWorld initialState "FOO" true).toOption.map
        (fun p => (p.1.origin, p.1.value)) = some (CONFIG_ORIGIN.ENV, PyVal.str "bar") ∧
    lookup defaultsCatalog "FOO" = Option.none :=
  ⟨rfl, rfl⟩

/-- Claim C6, amended: `get_entry` raises the fatal `sys.exit(2)` ("not even
defined in defaults") exactly when the name is found in none of the
environment, the loaded config map and the defaults; in particular a name
present in the default catalog never hits this fatal error, but a name absent
from the catalog escapes it whenever the environment or the config map defines
it. -/
theorem get_entry_fatal_iff_unknown_everywhere (w : World) (st : ConfigState)
    (setting : String) (ex : Bool) :
    (get_entry w st setting ex = Except.error (PyExit.exitCode 2)) ↔
      (w.osenv setting = Option.none ∧ lookup st.values setting = Option.none ∧
       lookup st.defaults setting = Option.none) := by
  constructor
  · intro h
    unfold get_entry at h
    split at h
    · rename_i s heq
      split at h
      · cases hc : convertVerbosityText s with
        | ok v => rw [hc] at h; exact Except.noConfusion h
        | error e =>
          rw [hc] at h
          have h2 := Except.error.inj h
          have h3 := convertVerbosityText_no_exit2 s e hc
          rw [h3] at h2
          exact PyExit.noConfusion h2
      · exact Except.noConfusion h
    · rename_i heq
      split at h
      · exact Except.noConfusion h
      · rename_i hv
        split at h
        · exact Except.noConfusion h
        · rename_i hd
          exact ⟨heq, hv, hd⟩
  · rintro ⟨he, hv, hd⟩
    unfold get_entry
    rw [he, hv, hd]

/-- Claim C3: the aliasing bug of `get_entry`/`_expand_value`.  Looking up the
list-valued `CONFIG_DIRS` with expansion on returns an `UNEXPANDED` slot that
is the EXPANDED list (the list object is mutated in place and `UNEXPANDED`
aliases it), and the same mutation is visible in the stored `_defaults` map
afterwards — the pristine catalog value differs.  This contradicts the spec's
"raw_value: the value exactly as found at its origin" and the write-once store
for list values (string values are unaffected, their slot being rebound rather
than mutated). -/
theorem get_entry_list_expansion_mutates_raw_and_defaults :
    (get_entry homeWorld initialState "CONFIG_DIRS" true).toOption.map
        (fun p => (p.1.unexpanded, lookup p.2.defaults "CONFIG_DIRS")) =
      some (PyVal.list [PyVal.str "/xdg", PyVal.str "/home/u/.config", PyVal.str "/home/u"],
            some (PyVal.list [PyVal.str "/xdg", PyVal.str "/home/u/.config",
              PyVal.str "/home/u"])) ∧
    lookup defaultsCatalog "CONFIG_DIRS" =
      some (PyVal.list [PyVal.str "${XDG_CONFIG_HOME}", PyVal.str "~/.config", PyVal.str "~"]) ∧
    PyVal.list [PyVal.str "/xdg", PyVal.str "/home/u/.config", PyVal.str "/home/u"] ≠
      PyVal.list [PyVal.str "${XDG_CONFIG_HOME}", PyVal.str "~/.config", PyVal.str "~"] :=
  ⟨rfl, rfl, by simp⟩

/-! ### Identity merge helpers and claims -/

theorem idLookup_isSome_find (ids : List (String × IdEntry)) (k : String) :
    (idLookup ids k).isSome = (ids.find? (fun p => p.1 == k)).isSome := by
  unfold idLookup
  cases ids.find? (fun p => p.1 == k) <;> rfl

theorem find?_idSet_isSome (ids : List (String × IdEntry)) (k : String) (e : IdEntry) :
    ((idSet ids k e).find? (fun p => p.1 == k)).isSome = true := by
  rw [← idLookup_isSome_find, idLookup_idSet_self]
  rfl

/-- The entry of the `identities` dict used in several closed statements:
`alice`, referenced from the config file through `DEFAULT_IDENTITY`. -/
def cfgAliceEntry : IdEntry :=
  { origin := CONFIG_ORIGIN.CONFIG, setting := "DEFAULT_IDENTITY",
    unexpanded := "alice", dir := Option.none }

/-- A `config_entry` view: `alice` referenced by `DEFAULT_IDENTITY` from the
config file. -/
def configRefA : CfgEntryRef :=
  { setting := "DEFAULT_IDENTITY", origin := CONFIG_ORIGIN.CONFIG, value := PyVal.str "alice" }

/-- A `config_entry` view: reference from `SSH_OPTIONS`, also config-file
origin. -/
def configRefB : CfgEntryRef :=
  { setting := "SSH_OPTIONS", origin := CONFIG_ORIGIN.CONFIG, value := PyVal.list [] }

/-- A directory-scan reference to `alice`. -/
def dirRefAlice : CfgEntryRef :=
  { setting := "directory", origin := CONFIG_ORIGIN.DIR, value := PyVal.str "/ids/alice" }

/-- An unrelated pre-existing entry under the key `bob`. -/
def bobEntry : IdEntry :=
  { origin := CONFIG_ORIGIN.DEFAULT, setting := "DEFAULT_IDENTITY",
    unexpanded := "bob", dir := Option.none }

/-- Claim C1, counterexample: two references to the same identity from two
different config-file settings — the second reference's origin (CONFIG) does
NOT strictly outrank the stored origin (CONFIG), yet the stored
`source_setting` is replaced by the second setting.  Replacement also happens
on rank ties (for ARGV, CONFIG and DEFAULT), refuting "replaced only if the
new reference's origin strictly outranks the stored one". -/
theorem add_identity_equal_origin_replaces_setting :
    (idLookup (add_identity baseWorld "alice"
        (add_identity baseWorld "alice" [] configRefA) configRefB) "alice").map
      (fun e => (e.origin, e.setting)) = some (CONFIG_ORIGIN.CONFIG, "SSH_OPTIONS") ∧
    ¬ originRank CONFIG_ORIGIN.CONFIG < originRank CONFIG_ORIGIN.CONFIG :=
  ⟨rfl, by decide⟩

/-- Claim C1, amended: in the merge performed when an identity name recurs,
the stored origin and source setting are replaced exactly when the new
reference's origin strictly outranks the stored one, OR ties with it at an
origin other than ENVIRONMENT and DIRECTORY (priority ENVIRONMENT > ARGV >
CONFIG_FILE > DEFAULT > DIRECTORY); the stored unexpanded name is never
touched; and whenever the new reference's origin is DIRECTORY its value is
attached as the entry's directory, independently of the replacement.  In
particular a name referenced via a config-file setting and then via directory
scan keeps origin CONFIG_FILE with the directory populated. -/
theorem add_identity_merge_characterization (w : World) (identity : String)
    (ids : List (String × IdEntry)) (ce : CfgEntryRef) (old : IdEntry)
    (h : idLookup ids (expandStr w identity) = some old) :
    idLookup (add_identity w identity ids ce) (expandStr w identity) =
      some { origin :=
               if originRank old.origin < originRank ce.origin ∨
                  (originRank old.origin = originRank ce.origin ∧
                   ce.origin ≠ CONFIG_ORIGIN.ENV ∧ ce.origin ≠ CONFIG_ORIGIN.DIR)
               then ce.origin else old.origin,
             setting :=
               if originRank old.origin < originRank ce.origin ∨
                  (originRank old.origin = originRank ce.origin ∧
                   ce.origin ≠ CONFIG_ORIGIN.ENV ∧ ce.origin ≠ CONFIG_ORIGIN.DIR)
               then ce.setting else old.setting,
             unexpanded := old.unexpanded,
             dir := if ce.origin = CONFIG_ORIGIN.DIR then some ce.value else old.dir } := by
  simp only [add_identity]
  rw [h]
  by_cases hrep : replaceOrigin ce.origin old.origin
  · have hnd : ce.origin ≠ CONFIG_ORIGIN.DIR := by
      intro hd
      rw [hd] at hrep
      exact absurd hrep (by cases old.origin <;> decide)
    have hcond := (replaceOrigin_iff_rank ce.origin old.origin).mp hrep
    simp only [if_pos hrep, if_neg hnd, idLookup_idSet_self, if_pos hcond]
  · have hcond : ¬ (originRank old.origin < originRank ce.origin ∨
        (originRank old.origin = originRank ce.origin ∧
         ce.origin ≠ CONFIG_ORIGIN.ENV ∧ ce.origin ≠ CONFIG_ORIGIN.DIR)) :=
      fun hc => hrep ((replaceOrigin_iff_rank ce.origin old.origin).mpr hc)
    simp only [if_neg hrep]
    by_cases hdir : ce.origin = CONFIG_ORIGIN.DIR
    · simp only [if_pos hdir, h, idLookup_idSet_self, if_neg hcond]
    · simp only [if_neg hdir, h, if_neg hcond]

/-- Witness for the amended C1: `alice` referenced from the config file and
then found by the directory scan keeps origin CONFIG and setting
`DEFAULT_IDENTITY` while the directory is attached. -/
theorem add_identity_merge_characterization_witness :
    idLookup (add_identity baseWorld "alice" [("alice", cfgAliceEntry)] dirRefAlice) "alice" =
      some { origin := CONFIG_ORIGIN.CONFIG, setting := "DEFAULT_IDENTITY",
             unexpanded := "alice", dir := some (PyVal.str "/ids/alice") } :=
  add_identity_merge_characterization baseWorld "alice" [("alice", cfgAliceEntry)]
    dirRefAlice cfgAliceEntry rfl

theorem add_identity_keys (w : World) (identity : String) (ids : List (String × IdEntry))
    (ce : CfgEntryRef) :
    (add_identity w identity ids ce).map Prod.fst =
      if (idLookup ids (expandStr w identity)).isSome then ids.map Prod.fst
      else ids.map Prod.fst ++ [expandStr w identity] := by
  simp only [add_identity]
  cases hl : idLookup ids (expandStr w identity) with
  | none =>
    have hf : ids.find? (fun p => p.1 == expandStr w identity) = Option.none := by
      cases hf2 : ids.find? (fun p => p.1 == expandStr w identity) with
      | none => rfl
      | some p =>
        unfold idLookup at hl
        rw [hf2] at hl
        simp at hl
    simp only [hl, Option.isSome_none, Bool.false_eq_true, if_false]
    by_cases hdir : ce.origin = CONFIG_ORIGIN.DIR
    · simp only [if_pos hdir, idLookup_idSet_self]
      rw [map_fst_idSet, if_pos (find?_idSet_isSome _ _ _), map_fst_idSet, if_neg (by simp [hf])]
    · simp only [if_neg hdir]
      rw [map_fst_idSet, if_neg (by simp [hf])]
  | some old =>
    have hfs : (ids.find? (fun p => p.1 == expandStr w identity)).isSome = true := by
      rw [← idLookup_isSome_find, hl]
      rfl
    simp only [hl, Option.isSome_some, if_true]
    by_cases hrep : replaceOrigin ce.origin old.origin
    · simp only [if_pos hrep]
      by_cases hdir : ce.origin = CONFIG_ORIGIN.DIR
      · simp only [if_pos hdir, idLookup_idSet_self]
        rw [map_fst_idSet, if_pos (find?_idSet_isSome _ _ _), map_fst_idSet, if_pos hfs]
      · simp only [if_neg hdir]
        rw [map_fst_idSet, if_pos hfs]
    · simp only [if_neg hrep]
      by_cases hdir : ce.origin = CONFIG_ORIGIN.DIR
      · simp only [if_pos hdir, hl, idLookup_idSet_self]
        rw [map_fst_idSet, if_pos hfs]
      · simp only [if_neg hdir]

/-- Claim C4: `add_identity` keeps identity keys unique and never removes
one — starting from a duplicate-free mapping the result is duplicate-free, and
its key sequence is exactly the old one (an existing normalized name is
updated in place) or the old one with the new normalized name appended. -/
theorem add_identity_keys_unique (w : World) (identity : String)
    (ids : List (String × IdEntry)) (ce : CfgEntryRef)
    (hnd : (ids.map Prod.fst).Nodup) :
    ((add_identity w identity ids ce).map Prod.fst).Nodup ∧
    (add_identity w identity ids ce).map Prod.fst =
      (if expandStr w identity ∈ ids.map Prod.fst then ids.map Prod.fst
       else ids.map Prod.fst ++ [expandStr w identity]) := by
  have hk := add_identity_keys w identity ids ce
  have hiff := idLookup_isSome_iff ids (expandStr w identity)
  constructor
  · rw [hk]
    by_cases hmem : (idLookup ids (expandStr w identity)).isSome = true
    · rw [if_pos hmem]
      exact hnd
    · rw [if_neg hmem]
      have hnotmem : expandStr w identity ∉ ids.map Prod.fst := fun hm => hmem (hiff.mpr hm)
      rw [List.nodup_append]
      exact ⟨hnd, List.nodup_singleton _, by simp [List.disjoint_singleton, hnotmem]⟩
  · rw [hk]
    by_cases hmem : expandStr w identity ∈ ids.map Prod.fst
    · rw [if_pos (hiff.mpr hmem), if_pos hmem]
    · rw [if_neg (fun hs => hmem (hiff.mp hs)), if_neg hmem]

/-- Witness for C4: adding `alice` to a mapping holding only `bob` appends a
single `alice` key and keeps the keys duplicate-free. -/
theorem add_identity_keys_unique_witness :
    ((add_identity baseWorld "alice" [("bob", bobEntry)] configRefA).map Prod.fst).Nodup ∧
    (add_identity baseWorld "alice" [("bob", bobEntry)] configRefA).map Prod.fst =
      ["bob", "alice"] :=
  add_identity_keys_unique baseWorld "alice" [("bob", bobEntry)] configRefA (by simp)

/-- Process state for the current-user special case: login name `u`, home
`/home/u`, and `~/.ssh` (i.e. `/home/u/.ssh`) existing as a directory. -/
def userWorld : World :=
  { baseWorld with
    resolveHome := fun u => if u = "" then some "/home/u" else Option.none,
    isdir := fun p => p = "/home/u/.ssh" }

/-- An entry for the login name `u` that already carries an attached
directory `/somewhere/else` (key `DIR`). -/
def userEntry : IdEntry :=
  { origin := CONFIG_ORIGIN.DIR, setting := "directory",
    unexpanded := "u", dir := some (PyVal.str "/somewhere/else") }

/-- An identities mapping holding only that entry. -/
def userIds : List (String × IdEntry) :=
  [("u", userEntry)]

/-- Claim C5: the current-user fallback misspells the membership test — it
checks `'dir' in identities[identity]` while the stored key is `'DIR'` — so
the guard "lacks an attached directory" never holds back the fallback: for a
login-name entry that ALREADY has a directory attached, the fallback
overwrites it with `~/.ssh` instead of leaving it unchanged. -/
theorem current_user_fallback_overwrites_directory :
    (idLookup userIds "u").map (fun e => e.dir) =
      some (some (PyVal.str "/somewhere/else")) ∧
    entryHasKey userEntry "DIR" = true ∧
    (idLookup (specialCaseCurrentUser userWorld userIds) "u").map (fun e => e.dir) =
      some (some (PyVal.str "/home/u/.ssh")) ∧
    PyVal.str "/home/u/.ssh" ≠ PyVal.str "/somewhere/else" :=
  ⟨rfl, rfl, rfl, by simp⟩

/-! ### Config-file search (claim C8) -/

theorem loadFromDirs_first_match (w : World) (cf : String) :
    ∀ (ds : List String) (st : ConfigState),
      loadFromDirs w cf (ds.map PyVal.str) st =
        (match firstMatchDir w cf ds with
         | Option.none => Except.ok st
         | some cd => applyLoad w st (pathJoin cd cf)) := by
  intro ds
  induction ds with
  | nil => intro st; rfl
  | cons d rest ih =>
    intro st
    by_cases hd : w.isdir (normpath d) = true
    · by_cases hf : w.isfile (pathJoin (normpath d) cf) = true
      · simp only [List.map_cons, loadFromDirs, firstMatchDir, hd, hf]
        simp [applyLoad]
      · simp only [List.map_cons, loadFromDirs, firstMatchDir, hd, hf]
        simp [ih]
    · simp only [List.map_cons, loadFromDirs, firstMatchDir, hd]
      simp only [Bool.false_eq_true] at hd
      simp [hd, ih]

/-- Claim C8: `load_config_file` consults the expanded candidate directories
in order and loads from the first (normalized) candidate that is a directory
and contains the (normalized) config filename; candidates that do not exist or
lack the file are skipped; nothing after the first match is consulted (the
result is exactly determined by `firstMatchDir`, the first-match search); and
when no candidate matches, the override map `_values` is left exactly as it
was — in particular still empty when it started empty, which is not an
error. -/
theorem load_config_file_first_match (w : World) (st : ConfigState)
    (p1 p2 : Entry × ConfigState) (cf : String) (ds : List String)
    (h1 : get_entry w st "CONFIG_FILE" true = Except.ok p1)
    (h2 : p1.1.value = PyVal.str cf)
    (h3 : get_entry w p1.2 "CONFIG_DIRS" true = Except.ok p2)
    (h4 : p2.1.value = PyVal.list (ds.map PyVal.str)) :
    (load_config_file w st =
      (match firstMatchDir w (normpath cf) ds with
       | Option.none => Except.ok p2.2
       | some cd => applyLoad w p2.2 (pathJoin cd (normpath cf)))) ∧
    (st.values = [] → p2.2.values = []) := by
  constructor
  · unfold load_config_file
    simp only [h1, h2, h3, h4, pyIterate]
    exact loadFromDirs_first_match w (normpath cf) ds p2.2
  · intro hv
    have e1 := get_entry_values_empty w st "CONFIG_FILE" true p1 hv h1
    exact get_entry_values_empty w p1.2 "CONFIG_DIRS" true p2 e1 h3

/-- Process state for the C8 witness: `XDG_CONFIG_HOME=/xdg` (not a
directory, so the first candidate is skipped), `/home/u/.config` a directory
without the config file (skipped), `/home/u` a directory containing
`.ssh-ident3.json`. -/
def cfgWorld : World :=
  { baseWorld with
    osenv := fun s => if s = "XDG_CONFIG_HOME" then some "/xdg" else Option.none,
    resolveHome := fun u => if u = "" then some "/home/u" else Option.none,
    isdir := fun p => p == "/home/u/.config" || p == "/home/u",
    isfile := fun p => p == "/home/u/.ssh-ident3.json",
    readConfig := fun p =>
      if p = "/home/u/.ssh-ident3.json" then some [("DEFAULT_IDENTITY", PyVal.str "bob")]
      else Option.none }

/-- Placeholder pair for `Option.getD` below (never the actual result). -/
def junkEntryState : Entry × ConfigState :=
  ({ setting := "", expandFlag := false, origin := CONFIG_ORIGIN.ENV,
     value := PyVal.none, unexpanded := PyVal.none, name := Option.none }, initialState)

/-- The `CONFIG_FILE` lookup performed by `load_config_file` in `cfgWorld`. -/
def cfgP1 : Entry × ConfigState :=
  ((get_entry cfgWorld initialState "CONFIG_FILE" true).toOption).getD junkEntryState

/-- The subsequent `CONFIG_DIRS` lookup. -/
def cfgP2 : Entry × ConfigState :=
  ((get_entry cfgWorld cfgP1.2 "CONFIG_DIRS" true).toOption).getD junkEntryState

/-- Witness for C8: with the three expanded candidates `/xdg`,
`/home/u/.config`, `/home/u`, loading resolves through the first-match search
(the third candidate wins) and the override map stays empty when unmatched. -/
theorem load_config_file_first_match_witness :
    (load_config_file cfgWorld initialState =
      (match firstMatchDir cfgWorld (normpath ".ssh-ident3.json")
          ["/xdg", "/home/u/.config", "/home/u"] with
       | Option.none => Except.ok cfgP2.2
       | some cd => applyLoad cfgWorld cfgP2.2 (pathJoin cd (normpath ".ssh-ident3.json")))) ∧
    (initialState.values = [] → cfgP2.2.values = []) :=
  load_config_file_first_match cfgWorld initialState cfgP1 cfgP2 ".ssh-ident3.json"
    ["/xdg", "/home/u/.config", "/home/u"] rfl rfl rfl rfl

end SshIdent3
